import Mathlib

/-!
Verification development for the article service of a social publishing
backend (RealWorld-style "conduit" application). The service under study is
`ArticleService` in `src/apps/backend/src/article/article.module.ts`; it owns
articles, comments, favorites, tag association and the personalized feed,
layered over a relational store accessed through repositories and an entity
manager.

The embedding below models the persistent store as an explicit `DB` value and
each service operation as a pure function threading that state. JavaScript
specifics that matter to the behaviour are modelled explicitly:

- `+query.limit` (unary plus) is modelled by `jsToNum`, returning `none` for a
  NaN result; the query layer (knex) ignores a NaN limit or offset with a
  console warning, modelled by `applyLimit`/`applyOffset` treating `none` as
  the absence of a clause.
- MikroORM collections (`user.favorites`, `article.comments`) are modelled as
  lists of identifiers; `Collection.add` appends, `Collection.remove` erases,
  `Collection.contains` is list membership.
- `em.flush()` persisting the modifications made to loaded entities is
  modelled by writing the updated records back into the `DB` lists by id.
- Entity-to-transport rendering (`toJSON`, parameterized by the viewer) is
  external to this module per the specification; operations here return the
  stored records themselves, and the viewer lookup is kept only where it can
  fail and thereby change control flow.
-/

/-- Error taxonomy of the service layer: `notFound` corresponds to
`findOneOrFail` failures (MikroORM NotFoundError), `badRequest` to the
`BadRequestException` thrown by input validation in `create`. -/
inductive Err where
  | notFound
  | badRequest (msg : String)
deriving Repr, DecidableEq

/-- User record: `followers` holds ids of users following this user,
`favorites` holds ids of articles this user has favorited. -/
structure UserR where
  id : Nat
  username : String
  followers : List Nat
  favorites : List Nat
deriving Repr, DecidableEq

/-- Article record. `favoritesCount` is the denormalized counter kept by
`favorite`/`unFavorite` (an integer column, modelled as `Int`); `comments`
holds the ids of the owned comment collection; `tagList` is the denormalized
list of tag names stored on the article row. -/
structure ArticleR where
  id : Nat
  slug : String
  title : String
  description : String
  body : String
  tagList : List String
  favoritesCount : Int
  authorId : Nat
  comments : List Nat
  createdAt : Nat
deriving Repr, DecidableEq

/-- Comment record: belongs to exactly one article. -/
structure CommentR where
  id : Nat
  body : String
  authorId : Nat
  articleId : Nat
deriving Repr, DecidableEq

/-- The persistent store: users, articles, comments, and the global `Tag`
table (each row is a tag name; the entity has only an id and the name, so a
row is modelled by its name). -/
structure DB where
  users : List UserR
  articles : List ArticleR
  comments : List CommentR
  tags : List String
deriving Repr, DecidableEq

/-- The query-string record handed to `findAll`: each field is present
(`some`) or absent, and `limit`/`offset` are raw strings exactly as in
`Record<string, string>`. -/
structure Query where
  tag : Option String
  author : Option String
  favorited : Option String
  limit : Option String
  offset : Option String
deriving Repr, DecidableEq

/-- Return shape of `findAll`/`findFeed` (`IArticlesRO`). -/
structure ArticlesRO where
  articles : List ArticleR
  articlesCount : Nat
deriving Repr, DecidableEq

/-- The `tagList` field of `CreateArticleDto`: either a comma-separated
string or a list of strings, as accepted by `processTags`. -/
inductive TagInput where
  | str (s : String)
  | list (l : List String)
deriving Repr, DecidableEq

/-- `CreateArticleDto` fields used by `ArticleService.create`. -/
structure CreateArticleDto where
  title : String
  description : String
  body : String
  tagList : TagInput
deriving Repr, DecidableEq

/-- Trim of a character list: whitespace stripped from both ends, modelling
the JavaScript String.trim applied to tag names and by numeric coercion. -/
def trimChars (l : List Char) : List Char :=
  ((l.dropWhile Char.isWhitespace).reverse.dropWhile Char.isWhitespace).reverse

/-- String trim over the character data. -/
def jsTrimStr (s : String) : String :=
  String.mk (trimChars s.data)

/-- Split of a character list at every occurrence of the separator,
modelling JavaScript String.split with a one-character separator: the empty
input yields one empty piece, exactly as in JS. -/
def splitChar (sep : Char) : List Char → List (List Char)
  | [] => [[]]
  | c :: cs =>
    let r := splitChar sep cs
    if c = sep then [] :: r
    else
      match r with
      | [] => [[c]]
      | h :: t => (c :: h) :: t

/-- JavaScript split on a comma, producing strings. -/
def jsSplitComma (s : String) : List String :=
  (splitChar ',' s.data).map String.mk

/-- Decimal digit value of a character, if it is one. -/
def charDigit? (c : Char) : Option Nat :=
  if '0' ≤ c ∧ c ≤ '9' then some (c.toNat - '0'.toNat) else none

/-- Accumulator loop reading decimal digits. -/
def natOfDigitsAux (acc : Nat) : List Char → Option Nat
  | [] => some acc
  | c :: cs =>
    match charDigit? c with
    | none => none
    | some d => natOfDigitsAux (acc * 10 + d) cs

/-- Value of a nonempty all-digit character list, none otherwise. -/
def natOfDigits : List Char → Option Nat
  | [] => none
  | l => natOfDigitsAux 0 l

/-- Signed integer numeral over characters, as accepted by the JavaScript
number coercion for integers. -/
def intOfChars (l : List Char) : Option Int :=
  match l with
  | '-' :: r => (natOfDigits r).map (fun n => -(n : Int))
  | '+' :: r => (natOfDigits r).map (fun n => (n : Int))
  | _ => (natOfDigits l).map (fun n => (n : Int))

/-- JavaScript unary plus on a query string, as in `+query.limit`: the empty
or all-whitespace string coerces to 0, an integer numeral to its value, and
anything else to NaN, modelled as `none`. Fractional and exotic numeric
syntax is not needed by the inputs considered here. -/
def jsToNum (s : String) : Option Int :=
  let t := trimChars s.data
  if t = [] then some 0 else intOfChars t

/-- Applying a limit to the materialized row list. `none` models a NaN limit:
the knex query builder rejects a non-integer limit with a logged warning and
emits no LIMIT clause. A negative limit is clamped at 0 rows by `Int.toNat`.
-/
def applyLimit {α : Type} (n : Option Int) (l : List α) : List α :=
  match n with
  | none => l
  | some k => l.take k.toNat

/-- Applying an offset, in the same fashion as `applyLimit`. -/
def applyOffset {α : Type} (n : Option Int) (l : List α) : List α :=
  match n with
  | none => l
  | some k => l.drop k.toNat

/-- SQL pagination: OFFSET skips rows first, then LIMIT caps the rest. The
raw strings are coerced by `jsToNum` exactly where the source applies `+`. -/
def paginate (limS offS : Option String) (l : List ArticleR) : List ArticleR :=
  let lim := match limS with | some s => jsToNum s | none => none
  let off := match offS with | some s => jsToNum s | none => none
  applyLimit lim (applyOffset off l)

/-- Insertion step for sorting by `createdAt` descending. -/
def insertByCreated (a : ArticleR) : List ArticleR → List ArticleR
  | [] => [a]
  | b :: l => if b.createdAt < a.createdAt then a :: b :: l else b :: insertByCreated a l

/-- ORDER BY createdAt DESC, modelled as an insertion sort (relative order of
ties is not part of the contract). -/
def sortByCreatedDesc : List ArticleR → List ArticleR
  | [] => []
  | a :: l => insertByCreated a (sortByCreatedDesc l)

/-- Substring test modelling `new RegExp(pattern)` matching for the plain
(metacharacter-free) patterns considered here: the pattern matches a string
iff it occurs as a contiguous substring. -/
def strContains (hay needle : String) : Bool :=
  (List.range (hay.length + 1)).any (fun i => needle.isPrefixOf (hay.drop i))

/-- Modelled from the spec: the Article entity source is not part of the
service module; the spec describes `tagList` as a denormalized string list on
the article row, which the `tag` filter pattern-matches against. We model
the stored column as the comma-joined list. -/
def tagColumn (a : ArticleR) : String :=
  String.intercalate "," a.tagList

/-- Tail of `findAll` once the filter set has been resolved to a matching
row set: order newest first, count the matching rows (`qb.clone().count`)
before pagination, then apply limit/offset only if present in the query. -/
def findAllRest (q : Query) (matching : List ArticleR) : ArticlesRO :=
  let sorted := sortByCreatedDesc matching
  { articles := paginate q.limit q.offset sorted, articlesCount := sorted.length }

/-- Assembly of the `findAll` where-clauses: the conjunctive `tag`, `author`
and `favorited` filters, in source order; `none` is the short-circuit return
taken when `author` or `favorited` names no user. In the `favorited` branch,
faithful to the source, the ids taken from
`author.favorites.$.getIdentifiers()` are ARTICLE ids and the query then
filters `{ author: ids }`, i.e. compares the AUTHOR id of each article
against that id set. -/
def findAllMatches (db : DB) (q : Query) : Option (List ArticleR) :=
  let base := match q.tag with
    | none => db.articles
    | some t => db.articles.filter (fun a => strContains (tagColumn a) t)
  let afterAuthor : Option (List ArticleR) :=
    match q.author with
    | none => some base
    | some aname =>
      match db.users.find? (fun u => u.username == aname) with
      | none => none
      | some au => some (base.filter (fun a => a.authorId == au.id))
  match afterAuthor with
  | none => none
  | some l =>
    match q.favorited with
    | none => some l
    | some fname =>
      match db.users.find? (fun u => u.username == fname) with
      | none => none
      | some fu => some (l.filter (fun a => fu.favorites.contains a.authorId))

/-- `ArticleService.findAll`: the optional viewer is resolved with plain
`findOne` (it cannot fail and feeds only the external `toJSON` rendering, so
it does not appear in the state model); then the `tag`, `author` and
`favorited` filters apply conjunctively, short-circuiting to an empty result
when `author` or `favorited` names no user; order, count before pagination,
then paginate. The `userId` parameter is kept for signature fidelity. -/
def findAll (db : DB) (_userId : Nat) (q : Query) : ArticlesRO :=
  match findAllMatches db q with
  | none => { articles := [], articlesCount := 0 }
  | some l => findAllRest q l

/-- The feed membership condition `{ author: { followers: userId } }`: the
author row of the article has `userId` among its followers. -/
def feedPred (db : DB) (userId : Nat) (a : ArticleR) : Bool :=
  match db.users.find? (fun u => u.id == a.authorId) with
  | some au => au.followers.contains userId
  | none => false

/-- `ArticleService.findFeed`: articles whose author has the viewer among its
followers (`{ author: { followers: userId } }`), newest first, paginated by
the unconditional `+query.limit` / `+query.offset`; `findAndCount` reports
the total matching count before pagination. -/
def findFeed (db : DB) (userId : Nat) (q : Query) : ArticlesRO :=
  let matching := db.articles.filter (feedPred db userId)
  let sorted := sortByCreatedDesc matching
  let lim := match q.limit with | some s => jsToNum s | none => none
  let off := match q.offset with | some s => jsToNum s | none => none
  { articles := applyLimit lim (applyOffset off sorted), articlesCount := sorted.length }

/-- `ArticleService.findOne`, specialized to the slug selector actually used
by the controller. A truthy `userId` is resolved with `findOneOrFail`, so an
unknown viewer id aborts the whole call with NotFound; the article lookup
itself uses plain `findOne` and yields `none` rather than an error when no
article matches. -/
def findOne (db : DB) (userId : Nat) (slugv : String) : Except Err (Option ArticleR) :=
  if userId == 0 then
    Except.ok (db.articles.find? (fun a => a.slug == slugv))
  else
    match db.users.find? (fun u => u.id == userId) with
    | none => Except.error Err.notFound
    | some _ => Except.ok (db.articles.find? (fun a => a.slug == slugv))

/-- `ArticleService.deleteComment`: article and viewer are required
(`findOneOrFail`); the comment is taken as a bare reference by id, and only
when it is a member of the owned comment collection is it removed from the
collection and deleted; otherwise the call is a silent no-op returning the
unchanged article. -/
def deleteComment (db : DB) (userId : Nat) (slugv : String) (cid : Nat) :
    DB × Except Err ArticleR :=
  match db.articles.find? (fun a => a.slug == slugv) with
  | none => (db, Except.error Err.notFound)
  | some article =>
    match db.users.find? (fun u => u.id == userId) with
    | none => (db, Except.error Err.notFound)
    | some _user =>
      if article.comments.contains cid then
        let article' := { article with comments := article.comments.erase cid }
        ({ db with
            articles := db.articles.map (fun a => if a.id == article.id then article' else a),
            comments := db.comments.filter (fun c => !(c.id == cid)) },
          Except.ok article')
      else (db, Except.ok article)

/-- Update applied to each user row by `favorite`: the loaded user with id
`uid` gains `aid` at the end of its favorites collection. -/
def updAddFav (uid aid : Nat) (u : UserR) : UserR :=
  if u.id == uid then { u with favorites := u.favorites.concat aid } else u

/-- Update applied to each user row by `unFavorite`: the loaded user with id
`uid` has `aid` removed from its favorites collection. -/
def updRemFav (uid aid : Nat) (u : UserR) : UserR :=
  if u.id == uid then { u with favorites := u.favorites.erase aid } else u

/-- Writing a modified article row back by id on flush. -/
def setArticle (a' : ArticleR) (a : ArticleR) : ArticleR :=
  if a.id == a'.id then a' else a

/-- `ArticleService.favorite`: requires article (by slug) and user (by id);
when the user has not yet favorited the article, adds it to the favorites
collection and increments `favoritesCount` by one; otherwise no-op; flush
persists both modified entities. -/
def favorite (db : DB) (uid : Nat) (slugv : String) : DB × Except Err ArticleR :=
  match db.articles.find? (fun a => a.slug == slugv) with
  | none => (db, Except.error Err.notFound)
  | some article =>
    match db.users.find? (fun u => u.id == uid) with
    | none => (db, Except.error Err.notFound)
    | some user =>
      if user.favorites.contains article.id then (db, Except.ok article)
      else
        let article' := { article with favoritesCount := article.favoritesCount + 1 }
        ({ db with
            users := db.users.map (updAddFav uid article.id),
            articles := db.articles.map (setArticle article') },
          Except.ok article')

/-- `ArticleService.unFavorite`: symmetric to `favorite`; only when the user
currently has the article favorited is it removed and the counter
decremented. -/
def unFavorite (db : DB) (uid : Nat) (slugv : String) : DB × Except Err ArticleR :=
  match db.articles.find? (fun a => a.slug == slugv) with
  | none => (db, Except.error Err.notFound)
  | some article =>
    match db.users.find? (fun u => u.id == uid) with
    | none => (db, Except.error Err.notFound)
    | some user =>
      if user.favorites.contains article.id then
        let article' := { article with favoritesCount := article.favoritesCount - 1 }
        ({ db with
            users := db.users.map (updRemFav uid article.id),
            articles := db.articles.map (setArticle article') },
          Except.ok article')
      else (db, Except.ok article)

/-- `ArticleService.processTags`: a comma-separated string is split on commas
and each piece trimmed, a list is trimmed elementwise, and the result is
deduplicated preserving first occurrences (`new Set` iteration order). The
third source branch (input neither string nor array) is unreachable under
the typed API and has no constructor here. -/
def processTags : TagInput → List String
  | TagInput.str s => ((jsSplitComma s).map jsTrimStr).eraseDups
  | TagInput.list l => (l.map jsTrimStr).eraseDups

/-- Modelled from the spec: the Article entity source (slug derivation) is
not part of the service module; the spec states the slug is derived from the
title at creation. The derivation details are irrelevant to the claims. -/
def slugify (title : String) : String :=
  title.toLower.map (fun c => if c = ' ' then '-' else c)

/-- Fresh surrogate id for a newly persisted article, modelling the
auto-increment key assigned by the store. -/
def freshArticleId (db : DB) : Nat :=
  db.articles.foldr (fun a m => max a.id m) 0 + 1

/-- `ArticleService.create`: validation first (empty title, description or
body throws BadRequest before anything is written); the author is resolved
with plain `findOne` (a missing author makes the insert fail at the store,
outside this module, modelled as notFound); the normalized tags are pushed
onto the tagList of the article, the article is persisted, and inside the
same transaction every normalized tag name not already present in the Tag
table is inserted, existing rows being left untouched. -/
def create (db : DB) (userId : Nat) (dto : CreateArticleDto) (now : Nat) :
    DB × Except Err ArticleR :=
  if dto.title = "" || dto.description = "" || dto.body = "" then
    (db, Except.error (Err.badRequest "Title, description, and body are required."))
  else
    match db.users.find? (fun u => u.id == userId) with
    | none => (db, Except.error Err.notFound)
    | some user =>
      let tagsToAdd := processTags dto.tagList
      let article : ArticleR := {
        id := freshArticleId db
        slug := slugify dto.title
        title := dto.title
        description := dto.description
        body := dto.body
        tagList := tagsToAdd
        favoritesCount := 0
        authorId := user.id
        comments := []
        createdAt := now }
      let newTags := tagsToAdd.filter (fun t => !(db.tags.contains t))
      ({ db with articles := db.articles.concat article, tags := db.tags ++ newTags },
        Except.ok article)

/-- Number of users whose favorites collection contains the article id
`aid`. -/
def favCount (users : List UserR) (aid : Nat) : Nat :=
  users.countP (fun u => u.favorites.contains aid)

/-- The denormalized-counter invariant for one article: `favoritesCount`
equals the number of users whose favorites contain it. -/
def favSync (db : DB) (a : ArticleR) : Prop :=
  a.favoritesCount = (favCount db.users a.id : Int)

/-- Relational well-formedness of the store: user ids are pairwise distinct,
article ids and slugs are pairwise distinct, and each favorites collection
holds an article at most once (set semantics of the ORM collection). -/
def WF (db : DB) : Prop :=
  db.users.Pairwise (fun a b => a.id ≠ b.id) ∧
  db.articles.Pairwise (fun a b => a.id ≠ b.id) ∧
  db.articles.Pairwise (fun a b => a.slug ≠ b.slug) ∧
  ∀ u ∈ db.users, u.favorites.Nodup

/-! Concrete example stores used by the closed evaluations and witnesses. -/

/-- User alice (id 1), who has favorited article 10. -/
def userA : UserR := ⟨1, "alice", [], [10]⟩

/-- User bob (id 2), author of article 10, no favorites. -/
def userB : UserR := ⟨2, "bob", [], []⟩

/-- Article 10, slug "intro", authored by bob, favorited once (by alice). -/
def artX : ArticleR := ⟨10, "intro", "Intro", "d", "b", ["greet"], 1, 2, [], 3⟩

/-- A small consistent store: alice, bob, article 10, one pre-existing tag. -/
def dbMain : DB := ⟨[userA, userB], [artX], [], ["foo"]⟩

/-- Bob after favoriting article 10. -/
def userB2 : UserR := ⟨2, "bob", [], [10]⟩

/-- Article 10 after a second favorite. -/
def artX2 : ArticleR := ⟨10, "intro", "Intro", "d", "b", ["greet"], 2, 2, [], 3⟩

/-- The store dbMain after bob favorites article 10. -/
def dbMainFav : DB := ⟨[userA, userB2], [artX2], [], ["foo"]⟩

/-- Five articles by bob with descending creation times, for pagination
examples. -/
def feedArts : List ArticleR :=
  [⟨1, "a1", "A1", "d", "b", [], 0, 2, [], 5⟩,
   ⟨2, "a2", "A2", "d", "b", [], 0, 2, [], 4⟩,
   ⟨3, "a3", "A3", "d", "b", [], 0, 2, [], 3⟩,
   ⟨4, "a4", "A4", "d", "b", [], 0, 2, [], 2⟩,
   ⟨5, "a5", "A5", "d", "b", [], 0, 2, [], 1⟩]

/-- Store with five matching articles, for the pagination evaluations. -/
def db8 : DB := ⟨[userB], feedArts, [], []⟩

instance (db : DB) (a : ArticleR) : Decidable (favSync db a) := by
  unfold favSync; infer_instance

instance (db : DB) : Decidable (WF db) := by
  unfold WF; infer_instance

/-! Helper lemmas about the embedding. -/

/-- A `find?` commutes with a map whose function preserves the predicate on
every member of the list. -/
theorem find?_map_pres {α : Type} (f : α → α) (p : α → Bool) (l : List α)
    (hp : ∀ a ∈ l, p (f a) = p a) :
    (l.map f).find? p = (l.find? p).map f := by
  induction l with
  | nil => rfl
  | cons a l ih =>
    rw [List.map_cons]
    by_cases h : p a = true
    · rw [List.find?_cons_of_pos _ (by rw [hp a (by simp)]; exact h),
        List.find?_cons_of_pos _ h, Option.map_some']
    · rw [List.find?_cons_of_neg _ (by rw [hp a (by simp)]; exact h),
        List.find?_cons_of_neg _ h, ih (fun b hb => hp b (by simp [hb]))]

/-- In a list whose keys are pairwise distinct, any member sharing its key
with another member is that member. -/
theorem mem_unique_by_key {α : Type} (key : α → Nat) (l : List α)
    (hnd : l.Pairwise (fun a b => key a ≠ key b))
    (a b : α) (ha : a ∈ l) (hb : b ∈ l) (hk : key a = key b) : a = b := by
  induction l with
  | nil => cases ha
  | cons c l ih =>
    rw [List.pairwise_cons] at hnd
    rcases List.mem_cons.mp ha with rfl | ha' <;>
      rcases List.mem_cons.mp hb with rfl | hb'
    · rfl
    · exact absurd hk (hnd.1 b hb')
    · exact absurd hk.symm (hnd.1 a ha')
    · exact ih hnd.2 ha' hb'

/-- Adding the article to the favorites of the (unique) user with id `uid`,
when that user did not yet favorite it, increases by one the number of users
favoriting it. -/
theorem favCount_map_add (uid aid : Nat) (l : List UserR)
    (hnd : l.Pairwise (fun a b => a.id ≠ b.id))
    (u0 : UserR) (hfind : l.find? (fun u => u.id == uid) = some u0)
    (hnot : u0.favorites.contains aid = false) :
    favCount (l.map (updAddFav uid aid)) aid = favCount l aid + 1 := by
  induction l with
  | nil => cases hfind
  | cons h t ih =>
    rw [List.pairwise_cons] at hnd
    by_cases hh : (h.id == uid) = true
    · rw [List.find?_cons_of_pos (p := fun u => u.id == uid) t hh, Option.some.injEq] at hfind
      subst hfind
      have htail : t.map (updAddFav uid aid) = t := by
        have : ∀ b ∈ t, updAddFav uid aid b = b := by
          intro b hb
          unfold updAddFav
          rw [if_neg]
          simp only [beq_iff_eq] at hh ⊢
          rw [← hh]
          exact fun e => hnd.1 b hb e.symm
        calc t.map (updAddFav uid aid) = t.map id := List.map_congr_left this
          _ = t := List.map_id t
      unfold favCount
      rw [List.map_cons, htail, List.countP_cons, List.countP_cons]
      unfold updAddFav
      rw [if_pos hh]
      have hnot' : aid ∉ h.favorites := by simpa using hnot
      simp [List.concat_eq_append, hnot']
    · rw [List.find?_cons_of_neg (p := fun u => u.id == uid) t hh] at hfind
      unfold favCount
      rw [List.map_cons, List.countP_cons, List.countP_cons]
      have hht : updAddFav uid aid h = h := by unfold updAddFav; rw [if_neg hh]
      rw [hht]
      have := ih hnd.2 hfind
      unfold favCount at this
      omega

/-- Removing the article from the favorites of the (unique) user with id
`uid`, when that user currently favorites it (and the collection has no
duplicates), decreases by one the number of users favoriting it. -/
theorem favCount_map_remove (uid aid : Nat) (l : List UserR)
    (hnd : l.Pairwise (fun a b => a.id ≠ b.id))
    (u0 : UserR) (hfind : l.find? (fun u => u.id == uid) = some u0)
    (hmem : u0.favorites.contains aid = true) (hnodup : u0.favorites.Nodup) :
    favCount (l.map (updRemFav uid aid)) aid + 1 = favCount l aid := by
  induction l with
  | nil => cases hfind
  | cons h t ih =>
    rw [List.pairwise_cons] at hnd
    by_cases hh : (h.id == uid) = true
    · rw [List.find?_cons_of_pos (p := fun u => u.id == uid) t hh, Option.some.injEq] at hfind
      subst hfind
      have htail : t.map (updRemFav uid aid) = t := by
        have : ∀ b ∈ t, updRemFav uid aid b = b := by
          intro b hb
          unfold updRemFav
          rw [if_neg]
          simp only [beq_iff_eq] at hh ⊢
          rw [← hh]
          exact fun e => hnd.1 b hb e.symm
        calc t.map (updRemFav uid aid) = t.map id := List.map_congr_left this
          _ = t := List.map_id t
      unfold favCount
      rw [List.map_cons, htail, List.countP_cons, List.countP_cons]
      unfold updRemFav
      rw [if_pos hh]
      have herase : aid ∉ h.favorites.erase aid := hnodup.not_mem_erase
      have hmem' : aid ∈ h.favorites := by simpa using hmem
      simp [herase, hmem']
    · rw [List.find?_cons_of_neg (p := fun u => u.id == uid) t hh] at hfind
      unfold favCount
      rw [List.map_cons, List.countP_cons, List.countP_cons]
      have hht : updRemFav uid aid h = h := by unfold updRemFav; rw [if_neg hh]
      rw [hht]
      have := ih hnd.2 hfind
      unfold favCount at this
      omega

/-- Insertion preserves length plus one. -/
theorem length_insertByCreated (a : ArticleR) (l : List ArticleR) :
    (insertByCreated a l).length = l.length + 1 := by
  induction l with
  | nil => rfl
  | cons b l ih =>
    unfold insertByCreated
    split
    · simp
    · simp [ih]

/-- Sorting by creation time preserves length. -/
theorem length_sortByCreatedDesc (l : List ArticleR) :
    (sortByCreatedDesc l).length = l.length := by
  induction l with
  | nil => rfl
  | cons a l ih =>
    unfold sortByCreatedDesc
    rw [length_insertByCreated, ih]
    rfl

/-- Pagination returns a sublist of its input. -/
theorem paginate_sublist (limS offS : Option String) (l : List ArticleR) :
    List.Sublist (paginate limS offS l) l := by
  unfold paginate applyLimit applyOffset
  cases hl : (match limS with | some s => jsToNum s | none => none) with
  | none =>
    cases ho : (match offS with | some s => jsToNum s | none => none) with
    | none => exact List.Sublist.refl l
    | some k => exact List.drop_sublist _ l
  | some k =>
    cases ho : (match offS with | some s => jsToNum s | none => none) with
    | none => exact List.take_sublist _ l
    | some k' => exact List.Sublist.trans (List.take_sublist _ _) (List.drop_sublist _ l)

/-- A limit applied to no rows yields no rows. -/
theorem applyLimit_nil {α : Type} (n : Option Int) : applyLimit n ([] : List α) = [] := by
  cases n <;> simp [applyLimit]

/-- An offset applied to no rows yields no rows. -/
theorem applyOffset_nil {α : Type} (n : Option Int) : applyOffset n ([] : List α) = [] := by
  cases n <;> simp [applyOffset]

/-! Claim theorems. -/

/-- Claim C4: for every listArticles (findAll) call, the returned
articlesCount is the number of articles matching the filters before
limit and offset are applied; supplying limit and offset changes only which
articles are returned (a sublist of the unpaginated result), never the
reported count. -/
theorem c4_count_before_pagination (db : DB) (uid : Nat) (q : Query) :
    (findAll db uid q).articlesCount
        = (findAll db uid { q with limit := none, offset := none }).articlesCount
    ∧ (findAll db uid { q with limit := none, offset := none }).articlesCount
        = (findAll db uid { q with limit := none, offset := none }).articles.length
    ∧ List.Sublist (findAll db uid q).articles
        (findAll db uid { q with limit := none, offset := none }).articles := by
  obtain ⟨qt, qa, qf, ql, qo⟩ := q
  have hm : findAllMatches db ⟨qt, qa, qf, none, none⟩
      = findAllMatches db ⟨qt, qa, qf, ql, qo⟩ := rfl
  unfold findAll
  rw [hm]
  cases findAllMatches db ⟨qt, qa, qf, ql, qo⟩ with
  | none => exact ⟨rfl, rfl, List.Sublist.refl _⟩
  | some l =>
    refine ⟨rfl, rfl, ?_⟩
    show List.Sublist (paginate ql qo (sortByCreatedDesc l)) (sortByCreatedDesc l)
    exact paginate_sublist ql qo _

/-- Claim C5: createArticle with an empty title, description or body fails
with the validation error naming the required fields, and the store is
returned unchanged: no article row and no Tag row is persisted. -/
theorem c5_create_validation (db : DB) (uid : Nat) (dto : CreateArticleDto) (now : Nat)
    (h : dto.title = "" ∨ dto.description = "" ∨ dto.body = "") :
    create db uid dto now
      = (db, Except.error (Err.badRequest "Title, description, and body are required.")) := by
  unfold create
  rcases h with h | h | h <;> rw [if_pos (by simp [h])]

/-- Claim C7: when the article and the viewer exist but the comment id is
not a member of the owned comment collection of the article, deleteComment
is a silent no-op: no error, the store is unchanged, and the article is
returned as is. -/
theorem c7_deleteComment_noop (db : DB) (uid : Nat) (slugv : String) (cid : Nat)
    (art : ArticleR) (u : UserR)
    (hart : db.articles.find? (fun a => a.slug == slugv) = some art)
    (hu : db.users.find? (fun x => x.id == uid) = some u)
    (hnot : art.comments.contains cid = false) :
    deleteComment db uid slugv cid = (db, Except.ok art) := by
  unfold deleteComment
  rw [hart, hu]
  have hnot' : cid ∉ art.comments := by simpa using hnot
  simp [hnot']

/-- Claim C9: listFeed (findFeed) with an absent viewer identity returns an
empty feed with count 0 rather than raising an error, provided no follower
entry carries the absent id 0. -/
theorem c9_feed_unauthenticated (db : DB) (q : Query)
    (h : ∀ u ∈ db.users, u.followers.contains 0 = false) :
    findFeed db 0 q = { articles := [], articlesCount := 0 } := by
  unfold findFeed
  have hfil : db.articles.filter (feedPred db 0) = [] := by
    rw [List.filter_eq_nil_iff]
    intro a _
    unfold feedPred
    cases hau : db.users.find? (fun u => u.id == a.authorId) with
    | none => simp
    | some au => simpa using h au (List.mem_of_find?_eq_some hau)
  rw [hfil]
  simp [sortByCreatedDesc, applyLimit_nil, applyOffset_nil]

/-- Claim C10: getArticle (findOne) with a supplied viewer id that matches no
user fails as a whole with NotFound even when the requested article exists,
while listArticles (findAll) with the same unknown viewer proceeds and
returns the full article listing. -/
theorem c10_findOne_unknown_viewer (db : DB) (uid : Nat) (slugv : String) (art : ArticleR)
    (h0 : uid ≠ 0)
    (hnone : db.users.find? (fun u => u.id == uid) = none)
    (hart : db.articles.find? (fun a => a.slug == slugv) = some art) :
    findOne db uid slugv = Except.error Err.notFound
    ∧ findAll db uid { tag := none, author := none, favorited := none, limit := none, offset := none }
        = { articles := sortByCreatedDesc db.articles, articlesCount := db.articles.length } := by
  constructor
  · unfold findOne
    rw [if_neg (by simpa using h0), hnone]
  · unfold findAll
    show findAllRest { tag := none, author := none, favorited := none, limit := none, offset := none } db.articles = _
    unfold findAllRest
    simp only [length_sortByCreatedDesc]
    rfl


/-- Claim C2: after a completed favorite or unFavorite, the denormalized
favoritesCount of the addressed article equals the number of users whose
favorites contain it — the invariant is preserved by both operations on a
well-formed store where it held before the call. -/
theorem c2_favoritesCount_sync (db : DB) (uid : Nat) (slugv : String) (db' : DB) (art : ArticleR)
    (hwf : WF db) (hsync : ∀ a ∈ db.articles, favSync db a)
    (h : favorite db uid slugv = (db', Except.ok art)
        ∨ unFavorite db uid slugv = (db', Except.ok art)) :
    favSync db' art ∧ art ∈ db'.articles := by
  obtain ⟨hu, _ha, _hs, hfavnd⟩ := hwf
  rcases h with h | h
  · unfold favorite at h
    split at h
    · simp at h
    · next article hfa =>
      have hmem : article ∈ db.articles := List.mem_of_find?_eq_some hfa
      split at h
      · simp at h
      · next user hfu =>
        split at h
        · next hc =>
          obtain ⟨h1, h2⟩ := Prod.mk.injEq .. ▸ h
          injection h2 with h2
          subst h1; subst h2
          exact ⟨hsync article hmem, hmem⟩
        · next hc =>
          obtain ⟨h1, h2⟩ := Prod.mk.injEq .. ▸ h
          injection h2 with h2
          subst h1; subst h2
          have hcnt := favCount_map_add uid article.id db.users hu user hfu (by simpa using hc)
          have hs := hsync article hmem
          unfold favSync at hs ⊢
          constructor
          · show article.favoritesCount + 1
              = ((favCount (db.users.map (updAddFav uid article.id)) article.id : Nat) : Int)
            rw [hcnt, hs]
            push_cast
            ring
          · have hin := List.mem_map_of_mem
              (setArticle { article with favoritesCount := article.favoritesCount + 1 }) hmem
            have hset : setArticle { article with favoritesCount := article.favoritesCount + 1 } article
                = { article with favoritesCount := article.favoritesCount + 1 } := by
              unfold setArticle
              rw [if_pos (by simp)]
            rw [hset] at hin
            exact hin
  · unfold unFavorite at h
    split at h
    · simp at h
    · next article hfa =>
      have hmem : article ∈ db.articles := List.mem_of_find?_eq_some hfa
      split at h
      · simp at h
      · next user hfu =>
        split at h
        · next hc =>
          obtain ⟨h1, h2⟩ := Prod.mk.injEq .. ▸ h
          injection h2 with h2
          subst h1; subst h2
          have hnd : user.favorites.Nodup := hfavnd user (List.mem_of_find?_eq_some hfu)
          have hcnt := favCount_map_remove uid article.id db.users hu user hfu hc hnd
          have hs := hsync article hmem
          unfold favSync at hs ⊢
          constructor
          · show article.favoritesCount - 1
              = ((favCount (db.users.map (updRemFav uid article.id)) article.id : Nat) : Int)
            rw [hs]
            omega
          · have hin := List.mem_map_of_mem
              (setArticle { article with favoritesCount := article.favoritesCount - 1 }) hmem
            have hset : setArticle { article with favoritesCount := article.favoritesCount - 1 } article
                = { article with favoritesCount := article.favoritesCount - 1 } := by
              unfold setArticle
              rw [if_pos (by simp)]
            rw [hset] at hin
            exact hin
        · next hc =>
          obtain ⟨h1, h2⟩ := Prod.mk.injEq .. ▸ h
          injection h2 with h2
          subst h1; subst h2
          exact ⟨hsync article hmem, hmem⟩

/-- Claim C3 fails as stated: in the consistent store dbMain, alice (id 1)
has already favorited article 10; favorite is then a no-op and unFavorite
decrements, so the round trip ends with favoritesCount 0, not the original
1. -/
theorem c3_roundtrip_counterexample :
    userA ∈ dbMain.users ∧ artX ∈ dbMain.articles ∧ WF dbMain ∧ favSync dbMain artX
    ∧ artX.favoritesCount = 1
    ∧ (favorite dbMain 1 "intro").2 = Except.ok artX
    ∧ (unFavorite (favorite dbMain 1 "intro").1 1 "intro").2
        = Except.ok { artX with favoritesCount := 0 }
    ∧ ((unFavorite (favorite dbMain 1 "intro").1 1 "intro").1).articles
        = [{ artX with favoritesCount := 0 }]
    ∧ ¬ ({ artX with favoritesCount := 0 } : ArticleR).favoritesCount
        = artX.favoritesCount :=
  ⟨by decide, by decide, by decide, by decide, by decide, rfl, rfl, rfl, by decide⟩

/-- Claim C3 amended: provided the user had NOT already favorited the
article, favorite followed by unFavorite restores favoritesCount to its
original value, and afterwards the favorites set of the user does not
contain the article. -/
theorem c3_roundtrip_amended (db : DB) (uid : Nat) (slugv : String) (art : ArticleR) (u : UserR)
    (hwf : WF db)
    (hart : db.articles.find? (fun a => a.slug == slugv) = some art)
    (hu : db.users.find? (fun x => x.id == uid) = some u)
    (hnot : u.favorites.contains art.id = false) :
    ∃ db1 a1 db2 a2,
      favorite db uid slugv = (db1, Except.ok a1)
      ∧ unFavorite db1 uid slugv = (db2, Except.ok a2)
      ∧ a2.favoritesCount = art.favoritesCount
      ∧ a2 ∈ db2.articles
      ∧ ∀ v ∈ db2.users, v.id = uid → v.favorites.contains art.id = false := by
  obtain ⟨huD, haD, _, _⟩ := hwf
  have huid : (u.id == uid) = true := List.find?_some (p := fun x : UserR => x.id == uid) hu
  have hartmem : art ∈ db.articles := List.mem_of_find?_eq_some hart
  have hfav : favorite db uid slugv
      = ({ db with
            users := db.users.map (updAddFav uid art.id),
            articles := db.articles.map
              (setArticle { art with favoritesCount := art.favoritesCount + 1 }) },
         Except.ok { art with favoritesCount := art.favoritesCount + 1 }) := by
    unfold favorite
    rw [hart, hu]
    have hmemnot : art.id ∉ u.favorites := by simpa using hnot
    simp [hmemnot]
  have hpresA : ∀ a ∈ db.articles,
      ((setArticle { art with favoritesCount := art.favoritesCount + 1 } a).slug == slugv)
        = (a.slug == slugv) := by
    intro a hmemA
    unfold setArticle
    by_cases hid : (a.id == ({ art with favoritesCount := art.favoritesCount + 1 } : ArticleR).id) = true
    · rw [if_pos hid]
      have : a = art := mem_unique_by_key (fun x => x.id) db.articles haD a art hmemA hartmem
        (by simpa using hid)
      subst this
      rfl
    · rw [if_neg hid]
  have hfind1 : (db.articles.map
        (setArticle { art with favoritesCount := art.favoritesCount + 1 })).find?
          (fun a => a.slug == slugv)
      = some { art with favoritesCount := art.favoritesCount + 1 } := by
    rw [find?_map_pres _ _ _ hpresA, hart, Option.map_some']
    have : setArticle { art with favoritesCount := art.favoritesCount + 1 } art
        = { art with favoritesCount := art.favoritesCount + 1 } := by
      unfold setArticle
      rw [if_pos (by simp)]
    rw [this]
  have hpresU : ∀ x ∈ db.users,
      ((updAddFav uid art.id x).id == uid) = (x.id == uid) := by
    intro x _
    unfold updAddFav
    by_cases hxid : (x.id == uid) = true
    · rw [if_pos hxid]
    · rw [if_neg hxid]
  have hupd : updAddFav uid art.id u = { u with favorites := u.favorites.concat art.id } := by
    unfold updAddFav
    rw [if_pos huid]
  have hfindU : ((db.users.map (updAddFav uid art.id)).find? (fun x => x.id == uid))
      = some { u with favorites := u.favorites.concat art.id } := by
    rw [find?_map_pres _ _ _ hpresU, hu, Option.map_some', hupd]
  have hunf : unFavorite
      ({ db with
          users := db.users.map (updAddFav uid art.id),
          articles := db.articles.map
            (setArticle { art with favoritesCount := art.favoritesCount + 1 }) })
      uid slugv
      = ({ db with
            users := (db.users.map (updAddFav uid art.id)).map (updRemFav uid art.id),
            articles := (db.articles.map
              (setArticle { art with favoritesCount := art.favoritesCount + 1 })).map
              (setArticle { art with favoritesCount := art.favoritesCount + 1 - 1 }) },
         Except.ok { art with favoritesCount := art.favoritesCount + 1 - 1 }) := by
    unfold unFavorite
    rw [hfind1, hfindU]
    have hcont : art.id ∈ (u.favorites.concat art.id) := by simp
    simp [hcont]
  refine ⟨_, _, _, _, hfav, hunf, ?_, ?_, ?_⟩
  · show art.favoritesCount + 1 - 1 = art.favoritesCount
    omega
  · have hin := List.mem_map_of_mem
      (setArticle { art with favoritesCount := art.favoritesCount + 1 }) hartmem
    have hset : setArticle { art with favoritesCount := art.favoritesCount + 1 } art
        = { art with favoritesCount := art.favoritesCount + 1 } := by
      unfold setArticle
      rw [if_pos (by simp)]
    rw [hset] at hin
    have hin2 := List.mem_map_of_mem
      (setArticle { art with favoritesCount := art.favoritesCount + 1 - 1 }) hin
    have hset2 : setArticle { art with favoritesCount := art.favoritesCount + 1 - 1 }
        { art with favoritesCount := art.favoritesCount + 1 }
        = { art with favoritesCount := art.favoritesCount + 1 - 1 } := by
      unfold setArticle
      rw [if_pos (by simp)]
    rw [hset2] at hin2
    exact hin2
  · intro v hv hvid
    rw [List.mem_map] at hv
    obtain ⟨w1, hw1, rfl⟩ := hv
    rw [List.mem_map] at hw1
    obtain ⟨w, hw, rfl⟩ := hw1
    have hidadd : (updAddFav uid art.id w).id = w.id := by
      unfold updAddFav
      split <;> rfl
    have hidrem : ∀ y : UserR, (updRemFav uid art.id y).id = y.id := by
      intro y
      unfold updRemFav
      split <;> rfl
    have hwid : w.id = uid := by
      have h1 := hidrem (updAddFav uid art.id w)
      rw [h1, hidadd] at hvid
      exact hvid
    have huidEq : u.id = uid := by simpa using huid
    have hwu : w = u := by
      apply mem_unique_by_key (fun x => x.id) db.users huD w u hw (List.mem_of_find?_eq_some hu)
      show w.id = u.id
      rw [hwid, huidEq]
    subst hwu
    rw [hupd]
    have hrem : updRemFav uid art.id { w with favorites := w.favorites.concat art.id }
        = { w with favorites := (w.favorites.concat art.id).erase art.id } := by
      unfold updRemFav
      rw [if_pos huid]
    rw [hrem]
    show ((w.favorites.concat art.id).erase art.id).contains art.id = false
    have hnm : art.id ∉ w.favorites := by simpa using hnot
    rw [List.concat_eq_append, List.erase_append_right _ hnm]
    simp [hnm]

/-- Claim C6: createArticle with tagList "foo, bar, foo" stores an article
whose tagList holds foo and bar exactly once each, and afterwards the global
Tag table holds exactly one row each for foo and bar — whether or not foo
already existed — with every pre-existing row left in place. -/
theorem c6_tag_normalization (db : DB) (uid : Nat) (now : Nat) (u : UserR)
    (hu : db.users.find? (fun x => x.id == uid) = some u)
    (hnd : db.tags.Nodup) :
    ∃ art : ArticleR,
      (create db uid ⟨"Title", "Desc", "Body", TagInput.str "foo, bar, foo"⟩ now).2
          = Except.ok art
      ∧ art.tagList = ["foo", "bar"]
      ∧ art ∈ (create db uid ⟨"Title", "Desc", "Body", TagInput.str "foo, bar, foo"⟩ now).1.articles
      ∧ (create db uid ⟨"Title", "Desc", "Body", TagInput.str "foo, bar, foo"⟩ now).1.tags.count "foo" = 1
      ∧ (create db uid ⟨"Title", "Desc", "Body", TagInput.str "foo, bar, foo"⟩ now).1.tags.count "bar" = 1
      ∧ ∀ t ∈ db.tags, t ∈ (create db uid ⟨"Title", "Desc", "Body", TagInput.str "foo, bar, foo"⟩ now).1.tags := by
  have hproc : processTags (TagInput.str "foo, bar, foo") = ["foo", "bar"] := by decide
  have hcr : create db uid ⟨"Title", "Desc", "Body", TagInput.str "foo, bar, foo"⟩ now
      = ({ db with
            articles := db.articles.concat
              { id := freshArticleId db, slug := slugify "Title", title := "Title",
                description := "Desc", body := "Body", tagList := ["foo", "bar"],
                favoritesCount := 0, authorId := u.id, comments := [], createdAt := now },
            tags := db.tags ++ (["foo", "bar"].filter (fun t => !(db.tags.contains t))) },
         Except.ok
           { id := freshArticleId db, slug := slugify "Title", title := "Title",
             description := "Desc", body := "Body", tagList := ["foo", "bar"],
             favoritesCount := 0, authorId := u.id, comments := [], createdAt := now }) := by
    unfold create
    rw [if_neg (by decide), hu, hproc]
  refine ⟨ArticleR.mk (freshArticleId db) (slugify "Title") "Title" "Desc" "Body"
      ["foo", "bar"] 0 u.id [] now, ?_, ?_, ?_, ?_, ?_, ?_⟩
  · rw [hcr]
  · rfl
  · rw [hcr]
    simp [List.concat_eq_append]
  · rw [hcr]
    show List.count "foo" (db.tags ++ List.filter (fun t => !db.tags.contains t) ["foo", "bar"]) = 1
    by_cases hf : "foo" ∈ db.tags
    · have h1 : List.count "foo" db.tags = 1 := List.count_eq_one_of_mem hnd hf
      by_cases hb : "bar" ∈ db.tags <;>
        simp [List.count_append, hf, hb, h1, List.count_cons, List.count_nil]
    · have h1 : List.count "foo" db.tags = 0 := List.count_eq_zero.mpr hf
      by_cases hb : "bar" ∈ db.tags <;>
        simp [List.count_append, hf, hb, h1, List.count_cons, List.count_nil]
  · rw [hcr]
    show List.count "bar" (db.tags ++ List.filter (fun t => !db.tags.contains t) ["foo", "bar"]) = 1
    by_cases hb : "bar" ∈ db.tags
    · have h1 : List.count "bar" db.tags = 1 := List.count_eq_one_of_mem hnd hb
      by_cases hf : "foo" ∈ db.tags <;>
        simp [List.count_append, hf, hb, h1, List.count_cons, List.count_nil]
    · have h1 : List.count "bar" db.tags = 0 := List.count_eq_zero.mpr hb
      by_cases hf : "foo" ∈ db.tags <;>
        simp [List.count_append, hf, hb, h1, List.count_cons, List.count_nil]
  · rw [hcr]
    intro t ht
    simp [List.mem_append, ht]

/-- Claim C1 fails on the code: in dbMain, alice has favorited article 10,
which exists, yet findAll with the favorited filter returns the empty set —
the source filters on the AUTHOR id against the favorited ARTICLE ids
(`qb.andWhere({ author: ids })` with ids from `favorites.getIdentifiers()`),
not on the article id. -/
theorem c1_favorited_filter_bug :
    findAll dbMain 0 ⟨none, none, some "alice", none, none⟩
        = { articles := [], articlesCount := 0 }
    ∧ userA ∈ dbMain.users ∧ userA.username = "alice" ∧ userA.favorites = [10]
    ∧ artX ∈ dbMain.articles ∧ artX.id = 10 :=
  ⟨rfl, by decide, by decide, by decide, by decide, by decide⟩

/-- Claim C8 fails on the code: the malformed limit string "abc" coerces to
NaN (`none`), no validation error is raised, and findAll proceeds, returning
the full result set (the query layer drops the non-integer limit). -/
theorem c8_malformed_limit_not_validated :
    jsToNum "abc" = none
    ∧ findAll db8 1 ⟨none, none, none, some "abc", none⟩
        = { articles := feedArts, articlesCount := 5 } :=
  ⟨by decide, by decide⟩

/-- Witness for C2: bob favorites article 10 in dbMain; in the resulting
store the favoritesCount 2 of the stored article equals the number of users
favoriting it. -/
theorem c2_favoritesCount_sync_witness :
    favSync dbMainFav artX2 ∧ artX2 ∈ dbMainFav.articles :=
  c2_favoritesCount_sync dbMain 2 "intro" dbMainFav artX2 (by decide) (by decide)
    (Or.inl rfl)

/-- Witness for the amended C3: bob, who has not favorited article 10,
favorites and then unfavorites it; the counter returns to 1 and his
favorites no longer contain the article. -/
theorem c3_roundtrip_amended_witness :
    ∃ db1 a1 db2 a2,
      favorite dbMain 2 "intro" = (db1, Except.ok a1)
      ∧ unFavorite db1 2 "intro" = (db2, Except.ok a2)
      ∧ a2.favoritesCount = artX.favoritesCount
      ∧ a2 ∈ db2.articles
      ∧ ∀ v ∈ db2.users, v.id = 2 → v.favorites.contains artX.id = false :=
  c3_roundtrip_amended dbMain 2 "intro" artX userB (by decide) (by decide) (by decide)
    (by decide)

/-- Witness for C5: creating with an empty title in dbMain returns the
validation error and leaves the store untouched. -/
theorem c5_create_validation_witness :
    create dbMain 1 ⟨"", "d", "b", TagInput.str ""⟩ 0
      = (dbMain, Except.error (Err.badRequest "Title, description, and body are required.")) :=
  c5_create_validation dbMain 1 ⟨"", "d", "b", TagInput.str ""⟩ 0 (Or.inl rfl)

/-- Witness for C6: creating an article in dbMain (where tag foo already
exists) with tagList "foo, bar, foo". -/
theorem c6_tag_normalization_witness :
    ∃ art : ArticleR,
      (create dbMain 1 ⟨"Title", "Desc", "Body", TagInput.str "foo, bar, foo"⟩ 7).2
          = Except.ok art
      ∧ art.tagList = ["foo", "bar"]
      ∧ art ∈ (create dbMain 1 ⟨"Title", "Desc", "Body", TagInput.str "foo, bar, foo"⟩ 7).1.articles
      ∧ (create dbMain 1 ⟨"Title", "Desc", "Body", TagInput.str "foo, bar, foo"⟩ 7).1.tags.count "foo" = 1
      ∧ (create dbMain 1 ⟨"Title", "Desc", "Body", TagInput.str "foo, bar, foo"⟩ 7).1.tags.count "bar" = 1
      ∧ ∀ t ∈ dbMain.tags, t ∈ (create dbMain 1 ⟨"Title", "Desc", "Body", TagInput.str "foo, bar, foo"⟩ 7).1.tags :=
  c6_tag_normalization dbMain 1 7 userA (by decide) (by decide)

/-- Witness for C7: deleting comment id 99, which is not in the comment
collection of article 10, is a no-op in dbMain. -/
theorem c7_deleteComment_noop_witness :
    deleteComment dbMain 1 "intro" 99 = (dbMain, Except.ok artX) :=
  c7_deleteComment_noop dbMain 1 "intro" 99 artX userA (by decide) (by decide) (by decide)

/-- Witness for C9: the feed of the absent viewer (id 0) over dbMain is
empty with count 0. -/
theorem c9_feed_unauthenticated_witness :
    findFeed dbMain 0 ⟨none, none, none, some "2", some "0"⟩
      = { articles := [], articlesCount := 0 } :=
  c9_feed_unauthenticated dbMain ⟨none, none, none, some "2", some "0"⟩ (by decide)

/-- Witness for C10: viewer id 5 matches no user in dbMain; findOne fails
with NotFound although article 10 exists, while findAll succeeds. -/
theorem c10_findOne_unknown_viewer_witness :
    findOne dbMain 5 "intro" = Except.error Err.notFound
    ∧ findAll dbMain 5 ⟨none, none, none, none, none⟩
        = { articles := sortByCreatedDesc dbMain.articles, articlesCount := dbMain.articles.length } :=
  c10_findOne_unknown_viewer dbMain 5 "intro" artX (by decide) (by decide) (by decide)
